import Mathlib

/-!
Shallow embedding of the item CRUD service in `main.py`.

The service keeps one process-wide mapping `items_db` from server-generated
identifiers to item records, and exposes five operations: create, list,
get, update, delete.  The Python mapping is a `dict`, which preserves
insertion order and replaces values in place on assignment to an existing
key; we model it as an association list in insertion order.  Identifiers
(UUIDs in the source) are modelled abstractly as natural numbers; the
random generator `uuid.uuid4()` is modelled by passing the generated
identifier as an explicit argument to `create_item`.

Request validation performed by the framework before a handler runs
(the `ItemCreate` pydantic model demands `text` of length at least one)
is part of each embedded operation that receives a request body, and a
failed validation returns `Err.validation` with the store untouched,
exactly as the HTTP layer rejects the request before the handler runs.
Every operation returns the pair of its outcome and the store after the
call, so that absence of mutation is a provable statement.
-/

/-- Identifier of an item: stands for the `uuid.UUID` key type. -/
abbrev ItemId := Nat

/-- `class ItemCreate(BaseModel)` in `main.py`: request body for create
and update, with `text: str = Field(..., min_length=1)` and
`is_done: bool = False`. -/
structure ItemCreate where
  text : String
  is_done : Bool
deriving Repr, DecidableEq

/-- `class ItemResponse(BaseModel)` in `main.py`: a stored item with its
server-assigned identifier. -/
structure ItemResponse where
  id : ItemId
  text : String
  is_done : Bool
deriving Repr, DecidableEq

/-- The framework-level validation of an `ItemCreate` body:
`min_length=1` on `text`. -/
def ItemCreate.valid (c : ItemCreate) : Bool :=
  1 ≤ c.text.length

/-- `items_db: Dict[uuid.UUID, ItemResponse]`, as an insertion-ordered
association list. -/
abbrev Store := List (ItemId × ItemResponse)

/-- `items_db.get(item_id)`: first (and, on reachable stores, only)
value stored under the key. -/
def dictGet (i : ItemId) : Store → Option ItemResponse
  | [] => none
  | (k, v) :: rest => if k = i then some v else dictGet i rest

/-- `items_db[item_id] = new_item`: replace the value in place when the
key is present, append a new entry otherwise — the Python `dict`
assignment, which keeps insertion order for existing keys. -/
def dictInsert (i : ItemId) (v : ItemResponse) : Store → Store
  | [] => [(i, v)]
  | (k, w) :: rest => if k = i then (k, v) :: rest else (k, w) :: dictInsert i v rest

/-- `del items_db[item_id]`: remove the entry stored under the key. -/
def dictErase (i : ItemId) : Store → Store
  | [] => []
  | (k, w) :: rest => if k = i then rest else (k, w) :: dictErase i rest

/-- Error outcomes of the operations, as surfaced over HTTP:
a body-validation failure (422) or `HTTPException(404, ...)` with the
missing identifier. -/
inductive Err where
  | invalidBody
  | notFound (item_id : ItemId)
deriving Repr, DecidableEq

/-- HTTP status code of each error. -/
def Err.statusCode : Err → Nat
  | .invalidBody => 422
  | .notFound _ => 404

/-- The `detail` message of each error; for a missing item it is the
f-string `f"Item with ID {item_id} not found"` of `main.py`. -/
def Err.detail : Err → String
  | .invalidBody => "validation error"
  | .notFound i => "Item with ID " ++ toString i ++ " not found"

/-- `create_item` in `main.py`: validate the body, generate an
identifier (here: the argument `gen`, standing for `uuid.uuid4()`),
construct the `ItemResponse`, store it, return it. -/
def create_item (gen : ItemId) (item_in : ItemCreate) (db : Store) :
    Except Err ItemResponse × Store :=
  if item_in.valid then
    let new_item : ItemResponse := ⟨gen, item_in.text, item_in.is_done⟩
    (Except.ok new_item, dictInsert gen new_item db)
  else
    (Except.error Err.invalidBody, db)

/-- Python slice index normalisation for step one: a negative index
counts from the end and clamps at zero, a non-negative index clamps at
the length. -/
def sliceIndex (n : Nat) (i : Int) : Nat :=
  if i < 0 then (i + n).toNat else min i.toNat n

/-- The Python slice `a[start : stop]` with step one. -/
def pySlice {α : Type} (a : List α) (start stop : Int) : List α :=
  ((a.drop (sliceIndex a.length start)).take
    (sliceIndex a.length stop - sliceIndex a.length start))

/-- `list_items` in `main.py`: `list(items_db.values())[skip : skip + limit]`.
The query parameters are plain `int`s, so negative values reach the
slice unchecked. -/
def list_items (skip limit : Int) (db : Store) :
    List ItemResponse × Store :=
  (pySlice (db.map (·.2)) skip (skip + limit), db)

/-- `get_item` in `main.py`: look the identifier up, raise the 404
`HTTPException` when absent. -/
def get_item (item_id : ItemId) (db : Store) :
    Except Err ItemResponse × Store :=
  match dictGet item_id db with
  | none => (Except.error (Err.notFound item_id), db)
  | some item => (Except.ok item, db)

/-- `update_item` in `main.py`: the body is validated by the framework
before the handler runs; then the identifier is looked up, the two
fields of the stored record are replaced, and the record is written
back under the same key. -/
def update_item (item_id : ItemId) (item_update : ItemCreate) (db : Store) :
    Except Err ItemResponse × Store :=
  if item_update.valid then
    match dictGet item_id db with
    | none => (Except.error (Err.notFound item_id), db)
    | some item =>
        let item2 : ItemResponse :=
          { item with text := item_update.text, is_done := item_update.is_done }
        (Except.ok item2, dictInsert item_id item2 db)
  else
    (Except.error Err.invalidBody, db)

/-- `delete_item` in `main.py`: `item_id not in items_db` raises the 404
`HTTPException`, otherwise the entry is removed. -/
def delete_item (item_id : ItemId) (db : Store) :
    Except Err Unit × Store :=
  if (dictGet item_id db).isSome then
    (Except.ok (), dictErase item_id db)
  else
    (Except.error (Err.notFound item_id), db)

/-- The store invariant: every stored record has non-empty text and
carries as its `id` field the key it is stored under, and keys are
unique. -/
def StoreInv (db : Store) : Prop :=
  (∀ p ∈ db, p.2.text ≠ "" ∧ p.2.id = p.1) ∧ (db.map (·.1)).Nodup

instance : DecidablePred StoreInv := fun db => by
  unfold StoreInv; infer_instance

/-! ### Basic facts about the embedded dictionary -/

theorem dictGet_dictInsert_self (i : ItemId) (v : ItemResponse) (s : Store) :
    dictGet i (dictInsert i v s) = some v := by
  induction s with
  | nil => simp [dictInsert, dictGet]
  | cons p rest ih =>
    obtain ⟨k, w⟩ := p
    by_cases hk : k = i
    · subst hk
      simp [dictInsert, dictGet]
    · simp [dictInsert, dictGet, hk, ih]

theorem dictGet_dictInsert_ne (i j : ItemId) (v : ItemResponse) (s : Store)
    (h : j ≠ i) : dictGet j (dictInsert i v s) = dictGet j s := by
  induction s with
  | nil => simp [dictInsert, dictGet, Ne.symm h]
  | cons p rest ih =>
    obtain ⟨k, w⟩ := p
    by_cases hk : k = i
    · subst hk
      simp [dictInsert, dictGet, Ne.symm h]
    · simp [dictInsert, dictGet, hk, ih]

theorem dictGet_eq_none_iff (i : ItemId) (s : Store) :
    dictGet i s = none ↔ i ∉ s.map (·.1) := by
  induction s with
  | nil => simp [dictGet]
  | cons p rest ih =>
    obtain ⟨k, w⟩ := p
    by_cases hk : k = i
    · subst hk
      simp [dictGet]
    · simp [dictGet, hk, Ne.symm hk, ih]

theorem dictGet_mem (i : ItemId) (v : ItemResponse) (s : Store)
    (h : dictGet i s = some v) : (i, v) ∈ s := by
  induction s with
  | nil => simp [dictGet] at h
  | cons p rest ih =>
    obtain ⟨k, w⟩ := p
    by_cases hk : k = i
    · subst hk
      simp [dictGet] at h
      subst h
      exact List.mem_cons_self _ _
    · simp only [dictGet, if_neg hk] at h
      exact List.mem_cons_of_mem _ (ih h)

theorem dictInsert_of_dictGet_none (i : ItemId) (v : ItemResponse) (s : Store)
    (h : dictGet i s = none) : dictInsert i v s = s ++ [(i, v)] := by
  induction s with
  | nil => simp [dictInsert]
  | cons p rest ih =>
    obtain ⟨k, w⟩ := p
    by_cases hk : k = i
    · subst hk
      simp [dictGet] at h
    · simp only [dictGet, if_neg hk] at h
      simp [dictInsert, hk, ih h]

theorem mem_dictInsert (p : ItemId × ItemResponse) (i : ItemId) (v : ItemResponse)
    (s : Store) (h : p ∈ dictInsert i v s) : p = (i, v) ∨ p ∈ s := by
  induction s with
  | nil =>
    simp [dictInsert] at h
    exact Or.inl h
  | cons q rest ih =>
    obtain ⟨k, w⟩ := q
    by_cases hk : k = i
    · subst hk
      simp [dictInsert] at h
      rcases h with h1 | h1
      · exact Or.inl (by rw [h1])
      · exact Or.inr (List.mem_cons_of_mem _ h1)
    · simp only [dictInsert, if_neg hk, List.mem_cons] at h
      rcases h with h1 | h1
      · exact Or.inr (h1 ▸ List.mem_cons_self _ _)
      · rcases ih h1 with h2 | h2
        · exact Or.inl h2
        · exact Or.inr (List.mem_cons_of_mem _ h2)

theorem keys_dictInsert_of_mem (i : ItemId) (v w : ItemResponse) (s : Store)
    (h : dictGet i s = some w) :
    (dictInsert i v s).map (·.1) = s.map (·.1) := by
  induction s with
  | nil => simp [dictGet] at h
  | cons p rest ih =>
    obtain ⟨k, u⟩ := p
    by_cases hk : k = i
    · simp [dictInsert, hk]
    · simp only [dictGet, if_neg hk] at h
      simp [dictInsert, hk, ih h]

theorem keys_dictInsert_nodup (i : ItemId) (v : ItemResponse) (s : Store)
    (h : (s.map (·.1)).Nodup) : ((dictInsert i v s).map (·.1)).Nodup := by
  cases hg : dictGet i s with
  | none =>
    rw [dictInsert_of_dictGet_none i v s hg, List.map_append]
    refine List.Nodup.append h (List.nodup_singleton i) ?_
    intro a ha hb
    simp only [List.map_cons, List.map_nil, List.mem_singleton] at hb
    subst hb
    exact (dictGet_eq_none_iff a s).mp hg ha
  | some w =>
    rw [keys_dictInsert_of_mem i v w s hg]
    exact h

theorem dictErase_sublist (i : ItemId) (s : Store) : List.Sublist (dictErase i s) s := by
  induction s with
  | nil => simp [dictErase]
  | cons p rest ih =>
    obtain ⟨k, w⟩ := p
    by_cases hk : k = i
    · simp only [dictErase, if_pos hk]
      exact List.sublist_cons_self _ _
    · simp only [dictErase, if_neg hk]
      exact List.Sublist.cons₂ _ ih

theorem length_dictErase (i : ItemId) (v : ItemResponse) (s : Store)
    (h : dictGet i s = some v) : (dictErase i s).length + 1 = s.length := by
  induction s with
  | nil => simp [dictGet] at h
  | cons p rest ih =>
    obtain ⟨k, w⟩ := p
    by_cases hk : k = i
    · simp [dictErase, hk]
    · simp only [dictGet, if_neg hk] at h
      simp [dictErase, hk, ih h]

theorem dictGet_dictErase_self (i : ItemId) (s : Store)
    (h : (s.map (·.1)).Nodup) : dictGet i (dictErase i s) = none := by
  induction s with
  | nil => simp [dictErase, dictGet]
  | cons p rest ih =>
    obtain ⟨k, w⟩ := p
    rw [List.map_cons, List.nodup_cons] at h
    by_cases hk : k = i
    · subst hk
      simp only [dictErase, if_pos rfl]
      exact (dictGet_eq_none_iff k rest).mpr h.1
    · simp [dictErase, dictGet, hk, ih h.2]

theorem dictGet_dictErase_ne (i j : ItemId) (s : Store) (h : j ≠ i) :
    dictGet j (dictErase i s) = dictGet j s := by
  induction s with
  | nil => rfl
  | cons p rest ih =>
    obtain ⟨k, w⟩ := p
    by_cases hk : k = i
    · subst hk
      simp [dictErase, dictGet, Ne.symm h]
    · simp [dictErase, dictGet, hk, ih]

/-! ### Validation -/

theorem string_length_one_le (s : String) : 1 ≤ s.length ↔ s ≠ "" := by
  constructor
  · intro h he
    rw [he] at h
    exact absurd h (by decide)
  · intro h
    obtain ⟨data⟩ := s
    cases data with
    | nil => exact absurd (by decide) h
    | cons ch rest =>
      show 1 ≤ rest.length + 1
      exact Nat.succ_le_succ (Nat.zero_le _)

theorem valid_iff (c : ItemCreate) : c.valid = true ↔ c.text ≠ "" := by
  unfold ItemCreate.valid
  rw [decide_eq_true_iff]
  exact string_length_one_le c.text

/-! ### Slice facts -/

theorem drop_min {α : Type} (a : List α) (m : Nat) :
    a.drop (min m a.length) = a.drop m := by
  rcases le_or_lt m a.length with h | h
  · rw [Nat.min_eq_left h]
  · rw [Nat.min_eq_right (Nat.le_of_lt h), List.drop_length]
    symm
    exact List.drop_eq_nil_of_le (Nat.le_of_lt h)

theorem pySlice_nonneg {α : Type} (a : List α) (k l : Int)
    (hk : 0 ≤ k) (hl : 0 ≤ l) :
    pySlice a k (k + l) = (a.drop k.toNat).take l.toNat := by
  unfold pySlice sliceIndex
  rw [if_neg (by omega), if_neg (by omega), drop_min]
  rw [List.take_eq_take, List.length_drop]
  have hadd : (k + l).toNat = k.toNat + l.toNat := Int.toNat_add hk hl
  omega

theorem pySlice_neg_one {α : Type} (a : List α)
    (h1 : 1 ≤ a.length) (h9 : a.length ≤ 9) :
    pySlice a (-1) 9 = a.drop (a.length - 1) := by
  have c1 : ((-1 : Int) < 0) := by norm_num
  have c2 : ¬((9 : Int) < 0) := by norm_num
  unfold pySlice sliceIndex
  rw [if_pos c1, if_neg c2]
  have hstart : ((-1 : Int) + a.length).toNat = a.length - 1 := by omega
  have hstop : min ((9 : Int)).toNat a.length = a.length := by
    have h9n : ((9 : Int)).toNat = 9 := rfl
    omega
  rw [hstart, hstop]
  exact List.take_of_length_le (le_of_eq (List.length_drop _ _))

/-! ### Invariant helpers -/

theorem storeInv_dictInsert (s : Store) (i : ItemId) (v : ItemResponse)
    (h : StoreInv s) (hv : v.text ≠ "") (hid : v.id = i) :
    StoreInv (dictInsert i v s) := by
  constructor
  · intro p hp
    rcases mem_dictInsert p i v s hp with h1 | h1
    · rw [h1]
      exact ⟨hv, hid⟩
    · exact h.1 p h1
  · exact keys_dictInsert_nodup i v s h.2

theorem storeInv_dictErase (s : Store) (i : ItemId)
    (h : StoreInv s) : StoreInv (dictErase i s) := by
  constructor
  · intro p hp
    exact h.1 p ((dictErase_sublist i s).subset hp)
  · exact h.2.sublist ((dictErase_sublist i s).map (·.1))

theorem get_item_snd (i : ItemId) (s : Store) : (get_item i s).2 = s := by
  unfold get_item
  cases dictGet i s <;> rfl

/-! ### Concrete stores used in the scenarios -/

/-- A batch of create requests with identifiers `0, 1, ...` standing for
the successively generated UUIDs. -/
def demoCreates (n : Nat) : List (ItemId × ItemCreate) :=
  (List.range n).map (fun k => (k, ⟨"task", false⟩))

/-- Run a sequence of create requests against a store, keeping the store
that results. -/
def createMany (reqs : List (ItemId × ItemCreate)) (db : Store) : Store :=
  reqs.foldl (fun s r => (create_item r.1 r.2 s).2) db

def store3 : Store := createMany (demoCreates 3) []

def store10 : Store := createMany (demoCreates 10) []

def store15 : Store := createMany (demoCreates 15) []

/-! ### The claims -/

/-- Claim C1: for a non-empty text, a boolean flag, and a generated
identifier that is not already a key of the store (the behaviour of the
UUID source), `create_item` returns the item echoing the inputs under
the fresh identifier, and the resulting store is the old store plus
exactly that one entry, appended at the end. -/
theorem create_item_spec (gen : ItemId) (c : ItemCreate) (s : Store)
    (hfresh : dictGet gen s = none) (htext : c.text ≠ "") :
    (create_item gen c s).1 = Except.ok ⟨gen, c.text, c.is_done⟩ ∧
    (create_item gen c s).2 = s ++ [(gen, ⟨gen, c.text, c.is_done⟩)] ∧
    gen ∉ s.map (·.1) := by
  have hv : c.valid = true := (valid_iff c).mpr htext
  unfold create_item
  rw [if_pos hv]
  exact ⟨rfl, dictInsert_of_dictGet_none _ _ _ hfresh,
    (dictGet_eq_none_iff _ _).mp hfresh⟩

/-- Witness for C1 at a concrete input. -/
theorem create_item_spec_witness :
    (create_item 0 ⟨"buy milk", false⟩ []).1 = Except.ok ⟨0, "buy milk", false⟩ ∧
    (create_item 0 ⟨"buy milk", false⟩ []).2 = [] ++ [(0, ⟨0, "buy milk", false⟩)] ∧
    (0 : ItemId) ∉ ([] : Store).map (·.1) :=
  create_item_spec 0 ⟨"buy milk", false⟩ [] rfl (by decide)

/-- Claim C2: the empty initial store satisfies the invariant
(non-empty text, id field equal to the key, unique keys), and every
operation maps a store satisfying the invariant to a store satisfying
it. -/
theorem store_invariant (s : Store) (h : StoreInv s)
    (gen i j k : ItemId) (c u : ItemCreate) (skip limit : Int) :
    StoreInv ([] : Store) ∧
    StoreInv (create_item gen c s).2 ∧
    StoreInv (list_items skip limit s).2 ∧
    StoreInv (get_item i s).2 ∧
    StoreInv (update_item j u s).2 ∧
    StoreInv (delete_item k s).2 := by
  refine ⟨by decide, ?_, h, ?_, ?_, ?_⟩
  · unfold create_item
    by_cases hv : c.valid = true
    · rw [if_pos hv]
      exact storeInv_dictInsert s gen _ h ((valid_iff c).mp hv) rfl
    · rw [if_neg hv]
      exact h
  · rw [get_item_snd]
    exact h
  · unfold update_item
    by_cases hv : u.valid = true
    · cases hg : dictGet j s with
      | none =>
        rw [if_pos hv]
        exact h
      | some v =>
        rw [if_pos hv]
        have hvid : v.id = j := (h.1 (j, v) (dictGet_mem j v s hg)).2
        exact storeInv_dictInsert s j _ h ((valid_iff u).mp hv) hvid
    · rw [if_neg hv]
      exact h
  · unfold delete_item
    by_cases hg : (dictGet k s).isSome = true
    · rw [if_pos hg]
      exact storeInv_dictErase s k h
    · rw [if_neg hg]
      exact h

/-- Witness for C2 at a concrete store satisfying the invariant. -/
theorem store_invariant_witness :
    StoreInv ([] : Store) ∧
    StoreInv (create_item 7 ⟨"x", true⟩ store3).2 ∧
    StoreInv (list_items 0 10 store3).2 ∧
    StoreInv (get_item 1 store3).2 ∧
    StoreInv (update_item 1 ⟨"y", false⟩ store3).2 ∧
    StoreInv (delete_item 2 store3).2 :=
  store_invariant store3 (by decide) 7 1 1 2 ⟨"x", true⟩ ⟨"y", false⟩ 0 10

/-- Claim C3: for non-negative skip and limit, `list_items` returns the
stored items in insertion order with the first skip dropped and at most
limit kept, leaves the store unchanged, and returns the empty sequence
when skip reaches the item count or when limit is zero. -/
theorem list_items_spec (skip limit : Int) (s : Store)
    (hs : 0 ≤ skip) (hl : 0 ≤ limit) :
    (list_items skip limit s).1 =
      ((s.map (·.2)).drop skip.toNat).take limit.toNat ∧
    (list_items skip limit s).2 = s ∧
    (s.length ≤ skip.toNat → (list_items skip limit s).1 = []) ∧
    (limit = 0 → (list_items skip limit s).1 = []) := by
  have hmain : (list_items skip limit s).1 =
      ((s.map (·.2)).drop skip.toNat).take limit.toNat := by
    show pySlice (s.map (·.2)) skip (skip + limit) = _
    exact pySlice_nonneg (s.map (·.2)) skip limit hs hl
  refine ⟨hmain, rfl, ?_, ?_⟩
  · intro hle
    rw [hmain, List.drop_eq_nil_of_le (by rw [List.length_map]; exact hle)]
    simp
  · intro h0
    rw [hmain, h0]
    rfl

/-- Witness for C3 at a concrete input. -/
theorem list_items_spec_witness :
    (list_items 1 2 store3).1 =
      ((store3.map (·.2)).drop (1 : Int).toNat).take (2 : Int).toNat ∧
    (list_items 1 2 store3).2 = store3 ∧
    (store3.length ≤ (1 : Int).toNat → (list_items 1 2 store3).1 = []) ∧
    ((2 : Int) = 0 → (list_items 1 2 store3).1 = []) :=
  list_items_spec 1 2 store3 (by decide) (by decide)

/-- Claim C4: `get_item` returns the stored item when the identifier is
present, fails with the 404 not-found error carrying the identifier
exactly when it is absent, reports a detail message naming the missing
identifier, and never changes the store. -/
theorem get_item_spec (i : ItemId) (s : Store) :
    (∀ v, dictGet i s = some v → (get_item i s).1 = Except.ok v) ∧
    (dictGet i s = none ↔ (get_item i s).1 = Except.error (Err.notFound i)) ∧
    (get_item i s).2 = s ∧
    (Err.notFound i).statusCode = 404 ∧
    (Err.notFound i).detail = "Item with ID " ++ toString i ++ " not found" := by
  refine ⟨?_, ?_, get_item_snd i s, rfl, rfl⟩
  · intro v hv
    unfold get_item
    rw [hv]
  · unfold get_item
    cases hg : dictGet i s with
    | none => simp
    | some v => simp

/-- Witness for C4 at a concrete input. -/
theorem get_item_spec_witness :
    (get_item 5 store3).1 = Except.error (Err.notFound 5) ∧
    (get_item 1 store3).1 = Except.ok ⟨1, "task", false⟩ :=
  ⟨((get_item_spec 5 store3).2.1).mp (by decide),
   (get_item_spec 1 store3).1 ⟨1, "task", false⟩ (by decide)⟩

/-- Claim C5: updating an existing item with a non-empty text fully
replaces the text and the flag, keeps the identifier, returns the
updated item, and a subsequent get returns exactly the updated item;
updating a missing identifier fails with the 404 not-found error. -/
theorem update_item_spec (i : ItemId) (u : ItemCreate) (v : ItemResponse)
    (s : Store) (hinv : StoreInv s) (hmem : dictGet i s = some v)
    (htext : u.text ≠ "") :
    (update_item i u s).1 = Except.ok ⟨i, u.text, u.is_done⟩ ∧
    dictGet i (update_item i u s).2 = some ⟨i, u.text, u.is_done⟩ ∧
    (get_item i (update_item i u s).2).1 = Except.ok ⟨i, u.text, u.is_done⟩ ∧
    (∀ j, dictGet j s = none →
      (update_item j u s).1 = Except.error (Err.notFound j) ∧
      (update_item j u s).2 = s) := by
  have hv : u.valid = true := (valid_iff u).mpr htext
  have hvid : v.id = i := (hinv.1 (i, v) (dictGet_mem i v s hmem)).2
  have h1 : (update_item i u s).1 = Except.ok ⟨v.id, u.text, u.is_done⟩ := by
    unfold update_item
    rw [if_pos hv, hmem]
  have h2 : (update_item i u s).2 = dictInsert i ⟨v.id, u.text, u.is_done⟩ s := by
    unfold update_item
    rw [if_pos hv, hmem]
  rw [hvid] at h1 h2
  refine ⟨h1, ?_, ?_, ?_⟩
  · rw [h2]
    exact dictGet_dictInsert_self i _ s
  · unfold get_item
    rw [h2, dictGet_dictInsert_self i _ s]
  · intro j hj
    constructor
    · unfold update_item
      rw [if_pos hv, hj]
    · unfold update_item
      rw [if_pos hv, hj]

/-- Witness for C5 at a concrete input. -/
theorem update_item_spec_witness :
    (update_item 1 ⟨"walk dog", true⟩ store3).1 =
      Except.ok ⟨1, "walk dog", true⟩ ∧
    dictGet 1 (update_item 1 ⟨"walk dog", true⟩ store3).2 =
      some ⟨1, "walk dog", true⟩ ∧
    (get_item 1 (update_item 1 ⟨"walk dog", true⟩ store3).2).1 =
      Except.ok ⟨1, "walk dog", true⟩ ∧
    (∀ j, dictGet j store3 = none →
      (update_item j ⟨"walk dog", true⟩ store3).1 =
        Except.error (Err.notFound j) ∧
      (update_item j ⟨"walk dog", true⟩ store3).2 = store3) :=
  update_item_spec 1 ⟨"walk dog", true⟩ ⟨1, "task", false⟩ store3
    (by decide) (by decide) (by decide)

/-- Claim C6: deleting an existing identifier removes exactly that
entry: the count drops by one, a subsequent get fails with the 404
not-found error, and every other key still maps to its old value;
deleting a missing identifier fails with the 404 not-found error and
leaves the store unchanged. -/
theorem delete_item_spec (i : ItemId) (s : Store) (hinv : StoreInv s) :
    (∀ v, dictGet i s = some v →
      (delete_item i s).1 = Except.ok () ∧
      (delete_item i s).2.length + 1 = s.length ∧
      (get_item i (delete_item i s).2).1 = Except.error (Err.notFound i) ∧
      (∀ j, j ≠ i → dictGet j (delete_item i s).2 = dictGet j s)) ∧
    (dictGet i s = none →
      (delete_item i s).1 = Except.error (Err.notFound i) ∧
      (delete_item i s).2 = s) := by
  constructor
  · intro v hv
    have hsome : (dictGet i s).isSome = true := by rw [hv]; rfl
    have h1 : (delete_item i s).1 = Except.ok () := by
      unfold delete_item
      rw [if_pos hsome]
    have h2 : (delete_item i s).2 = dictErase i s := by
      unfold delete_item
      rw [if_pos hsome]
    refine ⟨h1, ?_, ?_, ?_⟩
    · rw [h2]
      exact length_dictErase i v s hv
    · unfold get_item
      rw [h2, dictGet_dictErase_self i s hinv.2]
    · intro j hj
      rw [h2]
      exact dictGet_dictErase_ne i j s hj
  · intro hnone
    have hns : ¬((dictGet i s).isSome = true) := by rw [hnone]; simp
    unfold delete_item
    rw [if_neg hns]
    exact ⟨rfl, rfl⟩

/-- Witness for C6 at a concrete input. -/
theorem delete_item_spec_witness :
    ((delete_item 0 store3).1 = Except.ok () ∧
      (delete_item 0 store3).2.length + 1 = store3.length ∧
      (get_item 0 (delete_item 0 store3).2).1 =
        Except.error (Err.notFound 0) ∧
      (∀ j, j ≠ 0 → dictGet j (delete_item 0 store3).2 = dictGet j store3)) ∧
    (dictGet 9 store3 = none →
      (delete_item 9 store3).1 = Except.error (Err.notFound 9) ∧
      (delete_item 9 store3).2 = store3) :=
  ⟨(delete_item_spec 0 store3 (by decide)).1 ⟨0, "task", false⟩ (by decide),
   (delete_item_spec 9 store3 (by decide)).2⟩

/-- Claim C7: every failing call of any operation leaves the store
exactly as it was — validation and lookup happen before mutation — and
in particular creating with empty text fails with a validation error
without growing the store. -/
theorem atomicity_on_failure (gen i j k : ItemId) (c u : ItemCreate)
    (s : Store) :
    (∀ e, (create_item gen c s).1 = Except.error e →
      (create_item gen c s).2 = s) ∧
    (∀ e, (get_item i s).1 = Except.error e → (get_item i s).2 = s) ∧
    (∀ e, (update_item j u s).1 = Except.error e →
      (update_item j u s).2 = s) ∧
    (∀ e, (delete_item k s).1 = Except.error e →
      (delete_item k s).2 = s) ∧
    (c.text = "" → (create_item gen c s).1 = Except.error Err.invalidBody ∧
      (create_item gen c s).2 = s) := by
  refine ⟨?_, ?_, ?_, ?_, ?_⟩
  · intro e he
    unfold create_item at he ⊢
    by_cases hv : c.valid = true
    · rw [if_pos hv] at he
      simp at he
    · rw [if_neg hv]
  · intro e he
    exact get_item_snd i s
  · intro e he
    unfold update_item at he ⊢
    by_cases hv : u.valid = true
    · cases hg : dictGet j s with
      | none =>
        rw [if_pos hv]
      | some v =>
        rw [if_pos hv, hg] at he
        simp at he
    · rw [if_neg hv]
  · intro e he
    unfold delete_item at he ⊢
    by_cases hd : (dictGet k s).isSome = true
    · rw [if_pos hd] at he
      simp at he
    · rw [if_neg hd]
  · intro h0
    have hv : ¬(c.valid = true) := fun hv => (valid_iff c).mp hv h0
    unfold create_item
    rw [if_neg hv]
    exact ⟨rfl, rfl⟩

/-- Witness for C7 at a concrete input. -/
theorem atomicity_on_failure_witness :
    (create_item 5 ⟨"", false⟩ store3).1 = Except.error Err.invalidBody ∧
    (create_item 5 ⟨"", false⟩ store3).2 = store3 :=
  (atomicity_on_failure 5 0 0 0 ⟨"", false⟩ ⟨"x", true⟩ store3).2.2.2.2 rfl

/-- Claim C8: a successful update changes only the entry under the
updated identifier: every other key maps to its old value, and the key
sequence of the store — hence the set of identifiers present — is
unchanged. -/
theorem update_item_frame (i : ItemId) (u : ItemCreate) (v : ItemResponse)
    (s : Store) (hmem : dictGet i s = some v) (htext : u.text ≠ "") :
    (∃ w, (update_item i u s).1 = Except.ok w) ∧
    (∀ j, j ≠ i → dictGet j (update_item i u s).2 = dictGet j s) ∧
    ((update_item i u s).2).map (·.1) = s.map (·.1) := by
  have hv : u.valid = true := (valid_iff u).mpr htext
  have h1 : (update_item i u s).1 = Except.ok ⟨v.id, u.text, u.is_done⟩ := by
    unfold update_item
    rw [if_pos hv, hmem]
  have h2 : (update_item i u s).2 = dictInsert i ⟨v.id, u.text, u.is_done⟩ s := by
    unfold update_item
    rw [if_pos hv, hmem]
  refine ⟨⟨_, h1⟩, ?_, ?_⟩
  · intro j hj
    rw [h2]
    exact dictGet_dictInsert_ne i j _ s hj
  · rw [h2]
    exact keys_dictInsert_of_mem i _ v s hmem

/-- Witness for C8 at a concrete input. -/
theorem update_item_frame_witness :
    (∃ w, (update_item 2 ⟨"new text", false⟩ store3).1 = Except.ok w) ∧
    (∀ j, j ≠ 2 →
      dictGet j (update_item 2 ⟨"new text", false⟩ store3).2 =
        dictGet j store3) ∧
    ((update_item 2 ⟨"new text", false⟩ store3).2).map (·.1) =
      store3.map (·.1) :=
  update_item_frame 2 ⟨"new text", false⟩ ⟨2, "task", false⟩ store3
    (by decide) (by decide)

/-- Claim C9: after creating fifteen items in an empty store, listing
with skip 0 and limit 10 yields exactly the first ten items in creation
order, and listing with skip 10 and limit 10 yields exactly the
remaining five. -/
theorem pagination_scenario :
    store15.length = 15 ∧
    store15.map (·.1) = List.range 15 ∧
    (list_items 0 10 store15).1 = (store15.map (·.2)).take 10 ∧
    (list_items 10 10 store15).1 = (store15.map (·.2)).drop 10 ∧
    ((list_items 0 10 store15).1).length = 10 ∧
    ((list_items 10 10 store15).1).length = 5 := by
  decide

/-- Claim C10 counterexample: with ten items stored — so at least one —
the call with skip -1 and limit 10 returns the empty list, not the
single most recently inserted item. -/
theorem list_items_neg_skip_counterexample :
    1 ≤ store10.length ∧
    (list_items (-1) 10 store10).1 = [] ∧
    ((list_items (-1) 10 store10).1).length ≠ 1 := by
  decide

/-- Claim C10 amended: `list_items` performs no non-negativity check
and follows Python slice semantics, so some negative inputs return a
non-empty result instead of failing: with at least one and at most nine
items stored, skip -1 with limit 10 returns exactly the single most
recently inserted item.  With ten or more items the normalised stop
index 9 no longer lies past the normalised start index and the result
is empty, as the counterexample shows. -/
theorem list_items_neg_one (s : Store)
    (h1 : 1 ≤ s.length) (h9 : s.length ≤ 9) :
    (list_items (-1) 10 s).1 = (s.map (·.2)).drop (s.length - 1) ∧
    ((list_items (-1) 10 s).1).length = 1 := by
  have hm : (s.map (·.2)).length = s.length := by simp
  have hmain : (list_items (-1) 10 s).1 =
      (s.map (·.2)).drop (s.length - 1) := by
    show pySlice (s.map (·.2)) (-1) ((-1) + 10) = _
    have hsum : ((-1 : Int) + 10) = 9 := by norm_num
    rw [hsum, pySlice_neg_one (s.map (·.2)) (by omega) (by omega), hm]
  refine ⟨hmain, ?_⟩
  rw [hmain, List.length_drop, hm]
  omega

/-- Witness for the amended C10 at a concrete input. -/
theorem list_items_neg_one_witness :
    (list_items (-1) 10 store3).1 =
      (store3.map (·.2)).drop (store3.length - 1) ∧
    ((list_items (-1) 10 store3).1).length = 1 :=
  list_items_neg_one store3 (by decide) (by decide)
